import Mathlib

/-!
Verification development for the alpaca-donchian-adx-vf-bot repository.

The embedding covers:
* `src/utils/indicators.py` — `calculate_donchian`, `calculate_atr`,
  `calculate_adx` (true range, Wilder smoothing, DI/DX/ADX);
* `src/Domain/objects/positions.py` — the `Trade` dataclass and its
  `__post_init__` auto-computation, and the `OpenPosition` dataclass;
* `src/Domain/objects/signals.py` — the `Signal` dataclass field set;
* `src/Infrastructure/backtester/backtest_db_impl.py` and
  `src/Infrastructure/live_trader/live_trader_db_impl.py` — the two
  SQLite-backed ledger stores, embedded as explicit state transitions with
  SQLite's foreign-key semantics (both managers run `PRAGMA foreign_keys = ON`).

Prices are modelled as exact rationals; a pandas/NumPy NaN slot is modelled
as `none : Option ℚ`.
-/

namespace Bot

/-! ## Domain enumerations (src/Domain/objects/common.py) -/

inductive Direction
  | long
  | short
deriving DecidableEq, Repr

inductive SignalType
  | none
  | entry
  | exit
  | reverse
  | error
deriving DecidableEq, Repr

inductive QuantityType
  | shares
  | capital
deriving DecidableEq, Repr

/-! ## One OHLC bar (a row of the price DataFrame) -/

structure Bar where
  high : ℚ
  low : ℚ
  close : ℚ
deriving DecidableEq, Repr

/-- `max` of three values, as `np.maximum.reduce` over three arrays does
pointwise. -/
def max3 (a b c : ℚ) : ℚ := max a (max b c)

/-! ## True range and Wilder smoothing (src/utils/indicators.py)

`calculate_atr` builds `tr = np.maximum.reduce([high-low,
|high-close.shift()|, |low-close.shift()|])`; `close.shift()` is NaN at
index 0 and `np.maximum` propagates NaN, so `tr[0]` is NaN.  We embed the
per-index value of that series, with `none` for NaN. -/

/-- True range at index `t` of the series: `none` at `t = 0` (no previous
close) and outside the series. -/
def trAt (bars : List Bar) (t : ℕ) : Option ℚ :=
  if t = 0 then none
  else
    match bars.get? t, bars.get? (t - 1) with
    | some b, some pb =>
        some (max3 (b.high - b.low) |b.high - pb.close| |b.low - pb.close|)
    | _, _ => none

/-- `ewm(alpha=α, adjust=False).mean()` on an Option-valued (NaN-able)
series, per index.  Output is NaN until the first non-NaN input, seeds with
that input, then follows `y[t] = (1-α)·y[t-1] + α·x[t]`.  (The carry-forward
case `some s, none` matches pandas only when NaNs do not recur after the
first valid value; every series smoothed in this file has NaNs only at the
start.) -/
def ewmAt (α : ℚ) (x : ℕ → Option ℚ) : ℕ → Option ℚ
  | 0 => x 0
  | t + 1 =>
    match ewmAt α x t, x (t + 1) with
    | Option.none, v => v
    | Option.some s, Option.none => some s
    | Option.some s, Option.some v => some ((1 - α) * s + α * v)

/-- `ewm(alpha=α, adjust=False).mean()` on a series with no NaNs. -/
def ewmQAt (α : ℚ) (x : ℕ → ℚ) : ℕ → ℚ
  | 0 => x 0
  | t + 1 => (1 - α) * ewmQAt α x t + α * x (t + 1)

/-- `calculate_atr(df, period)` at index `t`:
`tr.ewm(alpha=1/period, adjust=False).mean()`. -/
def calculate_atr (bars : List Bar) (period : ℕ) (t : ℕ) : Option ℚ :=
  ewmAt (1 / (period : ℚ)) (trAt bars) t

/-! ## Donchian channel (src/utils/indicators.py, `calculate_donchian`)

The source computes `df['high'].rolling(window=3).max()` and
`df['low'].rolling(window=3).min()`: the window is the literal `3`; the
`period` parameter is accepted but never used.  `rolling(window=3)` with the
default `min_periods` yields NaN for the first two rows. -/

/-- `donchian_high` column at index `t`; the `period` argument is ignored by
the source, which hard-codes a 3-bar window. -/
def donchianHighAt (bars : List Bar) (_period : ℕ) (t : ℕ) : Option ℚ :=
  if t < 2 then none
  else
    match bars.get? (t - 2), bars.get? (t - 1), bars.get? t with
    | some a, some b, some c => some (max3 a.high b.high c.high)
    | _, _, _ => none

/-- `donchian_low` column at index `t`; the `period` argument is ignored by
the source, which hard-codes a 3-bar window. -/
def donchianLowAt (bars : List Bar) (_period : ℕ) (t : ℕ) : Option ℚ :=
  if t < 2 then none
  else
    match bars.get? (t - 2), bars.get? (t - 1), bars.get? t with
    | some a, some b, some c => some (min a.low (min b.low c.low))
    | _, _, _ => none

/-- The Donchian band the spec describes: trailing `max` of `high` over the
caller-supplied `k`-bar window ending at `t` (defined once `k` bars exist).
Modelled from the spec for comparison with `donchianHighAt`. -/
def donchianSpecHighAt (bars : List Bar) (k : ℕ) (t : ℕ) : Option ℚ :=
  if t + 1 < k ∨ bars.length ≤ t then none
  else ((List.range k).filterMap (fun i => (bars.get? (t - i)).map Bar.high)).max?

/-! ## ADX pipeline (src/utils/indicators.py, `calculate_adx`)

`high_diff = high - np.roll(high, 1)` and `low_diff = np.roll(low, 1) - low`
use `np.roll`, which wraps around: at index 0 the "previous" bar is the LAST
bar of the series.  (Unlike `prev_close`, these are not patched to NaN.) -/

/-- The bar `np.roll(·, 1)` pairs with index `t`: the previous bar, except
at `t = 0` where it wraps to the last bar. -/
def rollPrev (bars : List Bar) (t : ℕ) : Option Bar :=
  if t = 0 then bars.get? (bars.length - 1) else bars.get? (t - 1)

/-- `high_diff[t] = high[t] - np.roll(high,1)[t]` (0 outside the series,
where the NumPy array has no slot). -/
def highDiffAt (bars : List Bar) (t : ℕ) : ℚ :=
  match bars.get? t, rollPrev bars t with
  | some b, some pb => b.high - pb.high
  | _, _ => 0

/-- `low_diff[t] = np.roll(low,1)[t] - low[t]` (0 outside the series). -/
def lowDiffAt (bars : List Bar) (t : ℕ) : ℚ :=
  match bars.get? t, rollPrev bars t with
  | some b, some pb => pb.low - b.low
  | _, _ => 0

/-- `plus_dm = np.where((high_diff > low_diff) & (high_diff > 0), high_diff, 0)`. -/
def plusDmAt (bars : List Bar) (t : ℕ) : ℚ :=
  if lowDiffAt bars t < highDiffAt bars t ∧ 0 < highDiffAt bars t then
    highDiffAt bars t
  else 0

/-- `minus_dm = np.where((low_diff > high_diff) & (low_diff > 0), low_diff, 0)`. -/
def minusDmAt (bars : List Bar) (t : ℕ) : ℚ :=
  if highDiffAt bars t < lowDiffAt bars t ∧ 0 < lowDiffAt bars t then
    lowDiffAt bars t
  else 0

/-- `epsilon = 1e-10`, the division guard in `calculate_adx`. -/
def epsilon : ℚ := 1 / 10000000000

/-- `tr_smooth` column (`calculate_adx` builds the same NaN-at-0 true range
as `calculate_atr`, then Wilder-smooths it). -/
def trSmoothAt (bars : List Bar) (period : ℕ) (t : ℕ) : Option ℚ :=
  ewmAt (1 / (period : ℚ)) (trAt bars) t

/-- `plus_dm_smooth` column (the `plus_dm` array has no NaNs). -/
def plusDmSmoothAt (bars : List Bar) (period : ℕ) (t : ℕ) : ℚ :=
  ewmQAt (1 / (period : ℚ)) (plusDmAt bars) t

/-- `minus_dm_smooth` column. -/
def minusDmSmoothAt (bars : List Bar) (period : ℕ) (t : ℕ) : ℚ :=
  ewmQAt (1 / (period : ℚ)) (minusDmAt bars) t

/-- `plus_di = 100 * plus_dm_smooth / (tr_smooth + epsilon)`; NaN exactly
where `tr_smooth` is NaN. -/
def plusDiAt (bars : List Bar) (period : ℕ) (t : ℕ) : Option ℚ :=
  (trSmoothAt bars period t).map
    (fun s => 100 * plusDmSmoothAt bars period t / (s + epsilon))

/-- `minus_di = 100 * minus_dm_smooth / (tr_smooth + epsilon)`. -/
def minusDiAt (bars : List Bar) (period : ℕ) (t : ℕ) : Option ℚ :=
  (trSmoothAt bars period t).map
    (fun s => 100 * minusDmSmoothAt bars period t / (s + epsilon))

/-- `dx = 100 * |plus_di - minus_di| / (plus_di + minus_di + epsilon)`. -/
def dxAt (bars : List Bar) (period : ℕ) (t : ℕ) : Option ℚ :=
  match plusDiAt bars period t, minusDiAt bars period t with
  | some a, some b => some (100 * |a - b| / (a + b + epsilon))
  | _, _ => none

/-- `adx = dx.ewm(alpha=1/period, adjust=False).mean()`. -/
def adxAt (bars : List Bar) (period : ℕ) (t : ℕ) : Option ℚ :=
  ewmAt (1 / (period : ℚ)) (dxAt bars period) t

/-! ## Input validation of the indicator entry points

The indicator functions receive a DataFrame; we model the frame as its
column-presence flags (for `high`/`low`/`close`) plus the bar values.
`calculate_adx` and `calculate_atr` begin with
`if not {'high','low','close'}.issubset(df.columns): raise ValueError(...)`;
`calculate_donchian` has no check and simply subscripts `df['high']` then
`df['low']`, so a missing column surfaces as a pandas `KeyError`.  None of
the three validates `period`: `alpha = 1/period` raises `ZeroDivisionError`
for `period = 0`, and pandas' `ewm` itself rejects an `alpha` outside
`(0, 1]` (any negative `period`). -/

structure Frame where
  hasHigh : Bool
  hasLow : Bool
  hasClose : Bool
  bars : List Bar
deriving Repr

inductive IndicatorErr
  | missingColumns
  | keyMissing (col : String)
  | zeroDivision
  | badAlpha
deriving DecidableEq, Repr

/-- The spec's `MissingFieldError` kind: an error caused by an absent input
column — either the explicit `ValueError` of the issubset check or the
`KeyError` from subscripting a missing column. -/
def isMissingFieldErr : IndicatorErr → Bool
  | IndicatorErr.missingColumns => true
  | IndicatorErr.keyMissing _ => true
  | _ => false

/-- `calculate_donchian(df, period)` including its failure behavior: reads
`df['high']` (line 16) then `df['low']` (line 17); no column check, no use
of `period` at all. -/
def calculate_donchian_checked (f : Frame) (period : ℤ) :
    Except IndicatorErr ((ℕ → Option ℚ) × (ℕ → Option ℚ)) :=
  if ¬ f.hasHigh then Except.error (IndicatorErr.keyMissing "high")
  else if ¬ f.hasLow then Except.error (IndicatorErr.keyMissing "low")
  else Except.ok (donchianHighAt f.bars period.toNat, donchianLowAt f.bars period.toNat)

/-- `calculate_atr(df, period)` including its failure behavior. -/
def calculate_atr_checked (f : Frame) (period : ℤ) :
    Except IndicatorErr (ℕ → Option ℚ) :=
  if ¬ (f.hasHigh ∧ f.hasLow ∧ f.hasClose) then
    Except.error IndicatorErr.missingColumns
  else if period = 0 then Except.error IndicatorErr.zeroDivision
  else if period < 0 then Except.error IndicatorErr.badAlpha
  else Except.ok (calculate_atr f.bars period.toNat)

/-- `calculate_adx(df, period)` including its failure behavior; on success
it yields the `plus_di`, `minus_di` and `adx` columns. -/
def calculate_adx_checked (f : Frame) (period : ℤ) :
    Except IndicatorErr ((ℕ → Option ℚ) × (ℕ → Option ℚ) × (ℕ → Option ℚ)) :=
  if ¬ (f.hasHigh ∧ f.hasLow ∧ f.hasClose) then
    Except.error IndicatorErr.missingColumns
  else if period = 0 then Except.error IndicatorErr.zeroDivision
  else if period < 0 then Except.error IndicatorErr.badAlpha
  else
    Except.ok (plusDiAt f.bars period.toNat, minusDiAt f.bars period.toNat,
      adxAt f.bars period.toNat)

/-! ## Domain dataclasses (src/Domain/objects) -/

/-- The `Signal` dataclass (src/Domain/objects/signals.py).  Field names
are recorded separately in `signalFieldNames` to reason about Python's
dynamic attribute access. -/
structure Signal where
  stock : String
  signal : SignalType
  direction : Direction
  date : ℤ
  price : ℚ
  confidence : ℚ := -1
  reason : String := ""
  id : Option ℤ := Option.none
deriving DecidableEq, Repr

/-- The `OpenPosition` dataclass (src/Domain/objects/positions.py). -/
structure OpenPosition where
  stock : String
  direction : Direction
  date : ℤ
  entry_price : ℚ
  quantity_type : QuantityType
  quantity : ℚ
  entry_signal_id : ℤ
  open_position_id : Option ℤ := Option.none
  run_id : Option ℤ := Option.none
deriving DecidableEq, Repr

/-- The `Trade` dataclass (src/Domain/objects/positions.py).  The three
result fields are `Option ℚ` because `__post_init__` checks them against
Python `None`. -/
structure Trade where
  stock : String
  direction : Direction
  quantity_type : QuantityType
  quantity : ℚ
  entry_price : ℚ
  exit_price : ℚ
  entry_date : ℤ
  exit_date : ℤ
  gross_result : Option ℚ
  commission : Option ℚ
  net_result : Option ℚ
  entry_signal_id : ℤ
  exit_signal_id : ℤ
  trade_id : Option ℤ := Option.none
  run_id : Option ℤ := Option.none
deriving DecidableEq, Repr

/-- `Trade.__post_init__`:
* `self.quantity = abs(self.quantity)`;
* if `gross_result` is `None` or `0.0`, set it to
  `(exit_price - entry_price) * quantity * multiplier` with multiplier `1`
  for LONG and `-1` for SHORT;
* if `net_result` is `None` or `0.0`, set it to
  `gross_result - (commission if commission else 0.0)` (a falsy commission —
  `None` or `0.0` — counts as `0.0`).
Runs on every `Trade(...)` construction; a `gross_result`/`net_result`
passed explicitly as a non-zero number is kept as given. -/
def tradePostInit (t : Trade) : Trade :=
  let quantity : ℚ := |t.quantity|
  let gross : Option ℚ :=
    if t.gross_result = Option.none ∨ t.gross_result = some 0 then
      some ((t.exit_price - t.entry_price) * quantity *
        (match t.direction with
         | Direction.long => 1
         | Direction.short => -1))
    else t.gross_result
  let net : Option ℚ :=
    if t.net_result = Option.none ∨ t.net_result = some 0 then
      -- `self.gross_result` is a number by this point; getD 0 is unreachable
      some (gross.getD 0 - t.commission.getD 0)
    else t.net_result
  { t with quantity := quantity, gross_result := gross, net_result := net }

/-! ## Python attribute/keyword semantics for the Signal persistence bug

The stores access `signal.signal_type` and pass `signal_type=`,
`signal_id=`, `run_id=` keywords to `Signal(...)`.  A Python dataclass
raises `AttributeError` when a missing attribute is read, and `TypeError`
when its constructor receives an unexpected keyword argument.  We model an
object by the list of attribute names its dataclass defines. -/

inductive PyException
  | attributeError (attr : String)
  | typeError (kwarg : String)
deriving DecidableEq, Repr

/-- The attribute names the `Signal` dataclass defines
(src/Domain/objects/signals.py lines 28–35). -/
def signalFieldNames : List String :=
  ["stock", "signal", "direction", "date", "price", "confidence", "reason", "id"]

/-- Attribute reads `BacktestDataBaseManager.insert_signal` performs on its
`signal` argument, in evaluation order (line 211, then the parameter tuple
of lines 227–236). -/
def insertSignalReadsBacktest : List String :=
  ["date", "stock", "direction", "signal_type", "price", "confidence", "reason"]

/-- Attribute reads `LiveTraderDataBaseManager.insert_signal` performs on
its `signal` argument, in evaluation order (line 115, then the parameter
tuple of lines 130–138). -/
def insertSignalReadsLive : List String :=
  ["date", "stock", "direction", "signal_type", "price", "confidence", "reason"]

/-- Keyword arguments `BacktestDataBaseManager.get_signals_for_run` passes
to `Signal(...)` (lines 395–405). -/
def getSignalsForRunKwargs : List String :=
  ["stock", "signal_type", "direction", "date", "price", "confidence",
   "reason", "signal_id", "run_id"]

/-- Keyword arguments `LiveTraderDataBaseManager.get_signals` passes to
`Signal(...)` (lines 320–329). -/
def getSignalsKwargsLive : List String :=
  ["stock", "direction", "date", "signal_type", "price", "confidence",
   "reason", "signal_id"]

/-- Running a sequence of attribute reads against an object with the given
defined attribute names: the first read of an undefined attribute raises
`AttributeError`; if all reads succeed the body (the SQL INSERT) runs. -/
def runAttrReads (reads fields : List String) : Except PyException Unit :=
  match reads.find? (fun a => ¬ fields.contains a) with
  | some a => Except.error (PyException.attributeError a)
  | Option.none => Except.ok ()

/-- Calling a dataclass constructor with keyword arguments: an argument
name that is not a field raises `TypeError` (unexpected keyword argument). -/
def callCtorKwargs (kwargs fields : List String) : Except PyException Unit :=
  match kwargs.find? (fun k => ¬ fields.contains k) with
  | some k => Except.error (PyException.typeError k)
  | Option.none => Except.ok ()

/-! ## The backtest ledger store (src/Infrastructure/backtester/backtest_db_impl.py)

The store is SQLite with `PRAGMA foreign_keys = ON` and the schema of
`_create_tables`.  We embed it as explicit state passing: an operation maps
the committed state and its arguments to the post-call state together with
an `Except` result.  A Python exception after `conn.rollback()` (or a failed
`execute`, whose changes were never committed) leaves the post-call state
equal to the pre-call state. -/

inductive DbErr
  | integrityError
  | valueError
deriving DecidableEq, Repr

/-- A row of the backtest `signal` table. -/
structure SignalRow where
  signal_id : ℤ
  run_id : ℤ
  stock : String
  direction : Direction
  date : ℤ
  signal_type : SignalType
  price : ℚ
  confidence : ℚ
  reason : String
deriving DecidableEq, Repr

/-- A row of the backtest `open_position` table. -/
structure PositionRow where
  open_position_id : ℤ
  run_id : ℤ
  stock : String
  direction : Direction
  date : ℤ
  entry_price : ℚ
  quantity_type : QuantityType
  quantity : ℚ
  entry_signal_id : ℤ
deriving DecidableEq, Repr

/-- A row of the backtest `trade` table. -/
structure TradeRow where
  trade_id : ℤ
  run_id : ℤ
  stock : String
  direction : Direction
  quantity_type : QuantityType
  quantity : ℚ
  entry_price : ℚ
  exit_price : ℚ
  entry_date : ℤ
  exit_date : ℤ
  gross_result : Option ℚ
  commission : Option ℚ
  net_result : Option ℚ
  entry_signal_id : ℤ
  exit_signal_id : ℤ
deriving DecidableEq, Repr

/-- Committed state of a `BacktestDataBaseManager`: the four tables, the
next AUTOINCREMENT ids, and the manager's `current_run_id` field. -/
structure BacktestDB where
  runs : List ℤ
  signals : List SignalRow
  positions : List PositionRow
  trades : List TradeRow
  nextPositionId : ℤ
  nextTradeId : ℤ
  currentRunId : Option ℤ
deriving DecidableEq, Repr

/-- The ids present in the backtest `signal` table. -/
def BacktestDB.signalIds (db : BacktestDB) : List ℤ :=
  db.signals.map (fun s => s.signal_id)

/-- `BacktestDataBaseManager.insert_open_position`: a plain INSERT.  With
`PRAGMA foreign_keys = ON`, SQLite enforces `run_id NOT NULL`,
`FOREIGN KEY(run_id)` and `FOREIGN KEY(entry_signal_id)` during the
statement, raising `sqlite3.IntegrityError`; a failed statement changes
nothing. -/
def insertOpenPositionB (db : BacktestDB) (p : OpenPosition) :
    BacktestDB × Except DbErr ℤ :=
  match db.currentRunId with
  | Option.none => (db, Except.error DbErr.integrityError)
  | some r =>
    if ¬ db.runs.contains r then (db, Except.error DbErr.integrityError)
    else if ¬ db.signalIds.contains p.entry_signal_id then
      (db, Except.error DbErr.integrityError)
    else
      let row : PositionRow :=
        { open_position_id := db.nextPositionId
          run_id := r
          stock := p.stock
          direction := p.direction
          date := p.date
          entry_price := p.entry_price
          quantity_type := p.quantity_type
          quantity := p.quantity
          entry_signal_id := p.entry_signal_id }
      ({ db with
          positions := db.positions ++ [row]
          nextPositionId := db.nextPositionId + 1 },
       Except.ok db.nextPositionId)

/-- `BacktestDataBaseManager._insert_trade`: a plain INSERT into `trade`,
with the same SQLite constraint enforcement (NOT NULL `run_id`, run and
entry/exit signal foreign keys). -/
def insertTradeB (db : BacktestDB) (t : Trade) : BacktestDB × Except DbErr ℤ :=
  match db.currentRunId with
  | Option.none => (db, Except.error DbErr.integrityError)
  | some r =>
    if ¬ db.runs.contains r then (db, Except.error DbErr.integrityError)
    else if ¬ db.signalIds.contains t.entry_signal_id then
      (db, Except.error DbErr.integrityError)
    else if ¬ db.signalIds.contains t.exit_signal_id then
      (db, Except.error DbErr.integrityError)
    else
      let row : TradeRow :=
        { trade_id := db.nextTradeId
          run_id := r
          stock := t.stock
          direction := t.direction
          quantity_type := t.quantity_type
          quantity := t.quantity
          entry_price := t.entry_price
          exit_price := t.exit_price
          entry_date := t.entry_date
          exit_date := t.exit_date
          gross_result := t.gross_result
          commission := t.commission
          net_result := t.net_result
          entry_signal_id := t.entry_signal_id
          exit_signal_id := t.exit_signal_id }
      ({ db with
          trades := db.trades ++ [row]
          nextTradeId := db.nextTradeId + 1 },
       Except.ok db.nextTradeId)

/-- `BacktestDataBaseManager.close_open_position`: inserts the trade,
executes `DELETE FROM open_position WHERE open_position_id = ?`, and
commits.  A DELETE matching zero rows is not an error in SQLite and this
implementation does not inspect `rowcount`, so an unknown
`open_position_id` still commits the inserted trade and returns its id.
Only an exception (e.g. the insert's IntegrityError) triggers the
rollback branch. -/
def closeOpenPositionB (db : BacktestDB) (pid : ℤ) (t : Trade) :
    BacktestDB × Except DbErr ℤ :=
  match insertTradeB db t with
  | (_, Except.error e) => (db, Except.error e)
  | (db1, Except.ok tid) =>
    ({ db1 with
        positions := db1.positions.filter (fun q => q.open_position_id ≠ pid) },
     Except.ok tid)

/-- SQL `DELETE FROM backtest_run WHERE run_id = ?` under the schema of
`_create_tables` with `PRAGMA foreign_keys = ON`: the child tables declare
`FOREIGN KEY(run_id) REFERENCES backtest_run(run_id)` with no `ON DELETE`
clause (default NO ACTION), so deleting a run that any child row still
references fails with `sqlite3.IntegrityError` and removes nothing; no
cascade to children is ever performed. -/
def deleteRunB (db : BacktestDB) (r : ℤ) : BacktestDB × Except DbErr Unit :=
  if db.signals.any (fun s => s.run_id = r) ∨
     db.positions.any (fun p => p.run_id = r) ∨
     db.trades.any (fun t => t.run_id = r) then
    (db, Except.error DbErr.integrityError)
  else
    ({ db with runs := db.runs.filter (fun x => x ≠ r) }, Except.ok ())

/-! ## The live ledger store (src/Infrastructure/live_trader/live_trader_db_impl.py)

Same shape, but its schema has no run table and no `run_id` columns, and
its signal foreign keys carry `ON DELETE CASCADE`. -/

/-- A row of the live `signal` table. -/
structure LiveSignalRow where
  signal_id : ℤ
  stock : String
  direction : Direction
  date : ℤ
  signal_type : SignalType
  price : ℚ
  confidence : ℚ
  reason : String
deriving DecidableEq, Repr

/-- A row of the live `open_position` table. -/
structure LivePositionRow where
  open_position_id : ℤ
  stock : String
  direction : Direction
  date : ℤ
  entry_price : ℚ
  quantity_type : QuantityType
  quantity : ℚ
  entry_signal_id : ℤ
deriving DecidableEq, Repr

/-- A row of the live `trade` table. -/
structure LiveTradeRow where
  trade_id : ℤ
  stock : String
  direction : Direction
  quantity_type : QuantityType
  quantity : ℚ
  entry_price : ℚ
  exit_price : ℚ
  entry_date : ℤ
  exit_date : ℤ
  gross_result : Option ℚ
  commission : Option ℚ
  net_result : Option ℚ
  entry_signal_id : ℤ
  exit_signal_id : ℤ
deriving DecidableEq, Repr

/-- Committed state of a `LiveTraderDataBaseManager`. -/
structure LiveDB where
  signals : List LiveSignalRow
  positions : List LivePositionRow
  trades : List LiveTradeRow
  nextPositionId : ℤ
  nextTradeId : ℤ
deriving DecidableEq, Repr

/-- The ids present in the live `signal` table. -/
def LiveDB.signalIds (db : LiveDB) : List ℤ :=
  db.signals.map (fun s => s.signal_id)

/-- `LiveTraderDataBaseManager.insert_open_position`: a plain INSERT; with
`PRAGMA foreign_keys = ON` the `entry_signal_id` foreign key is enforced at
the statement. -/
def insertOpenPositionL (db : LiveDB) (p : OpenPosition) :
    LiveDB × Except DbErr ℤ :=
  if ¬ db.signalIds.contains p.entry_signal_id then
    (db, Except.error DbErr.integrityError)
  else
    let row : LivePositionRow :=
      { open_position_id := db.nextPositionId
        stock := p.stock
        direction := p.direction
        date := p.date
        entry_price := p.entry_price
        quantity_type := p.quantity_type
        quantity := p.quantity
        entry_signal_id := p.entry_signal_id }
    ({ db with
        positions := db.positions ++ [row]
        nextPositionId := db.nextPositionId + 1 },
     Except.ok db.nextPositionId)

/-- `LiveTraderDataBaseManager._insert_trade`. -/
def insertTradeL (db : LiveDB) (t : Trade) : LiveDB × Except DbErr ℤ :=
  if ¬ db.signalIds.contains t.entry_signal_id then
    (db, Except.error DbErr.integrityError)
  else if ¬ db.signalIds.contains t.exit_signal_id then
    (db, Except.error DbErr.integrityError)
  else
    let row : LiveTradeRow :=
      { trade_id := db.nextTradeId
        stock := t.stock
        direction := t.direction
        quantity_type := t.quantity_type
        quantity := t.quantity
        entry_price := t.entry_price
        exit_price := t.exit_price
        entry_date := t.entry_date
        exit_date := t.exit_date
        gross_result := t.gross_result
        commission := t.commission
        net_result := t.net_result
        entry_signal_id := t.entry_signal_id
        exit_signal_id := t.exit_signal_id }
    ({ db with
        trades := db.trades ++ [row]
        nextTradeId := db.nextTradeId + 1 },
     Except.ok db.nextTradeId)

/-- `LiveTraderDataBaseManager.close_open_position`: inserts the trade,
deletes the open position, and — unlike the backtest store — checks
`cursor.rowcount`: if the DELETE matched no row it raises `ValueError`
("Open position with ID ... does not exist"), and the `except` branch rolls
the whole transaction back, so the committed state is unchanged. -/
def closeOpenPositionL (db : LiveDB) (pid : ℤ) (t : Trade) :
    LiveDB × Except DbErr ℤ :=
  match insertTradeL db t with
  | (_, Except.error e) => (db, Except.error e)
  | (db1, Except.ok tid) =>
    let remaining := db1.positions.filter (fun q => q.open_position_id ≠ pid)
    if remaining.length = db1.positions.length then
      (db, Except.error DbErr.valueError)
    else
      ({ db1 with positions := remaining }, Except.ok tid)

/-! ## Supporting lemmas -/

lemma epsilon_pos : 0 < epsilon := by norm_num [epsilon]

lemma alpha_nonneg (p : ℕ) : 0 ≤ 1 / (p : ℚ) := by positivity

lemma alpha_le_one (p : ℕ) : 1 / (p : ℚ) ≤ 1 := by
  cases p with
  | zero => norm_num
  | succ n =>
    have h0 : (0 : ℚ) < ((n + 1 : ℕ) : ℚ) := by positivity
    rw [div_le_one h0]
    exact_mod_cast Nat.succ_le_succ (Nat.zero_le n)

lemma trAt_nonneg {bars : List Bar} {t : ℕ} {v : ℚ}
    (h : trAt bars t = some v) : 0 ≤ v := by
  unfold trAt at h
  split at h
  · simp at h
  · cases hg : bars.get? t with
    | none => rw [hg] at h; simp at h
    | some b =>
      cases hp : bars.get? (t - 1) with
      | none => rw [hg, hp] at h; simp at h
      | some pb =>
        rw [hg, hp] at h
        simp only [Option.some.injEq] at h
        subst h
        have h1 : (0 : ℚ) ≤ |b.high - pb.close| := abs_nonneg _
        have h2 : |b.high - pb.close| ≤ max |b.high - pb.close| |b.low - pb.close| :=
          le_max_left _ _
        have h3 : max |b.high - pb.close| |b.low - pb.close| ≤
            max3 (b.high - b.low) |b.high - pb.close| |b.low - pb.close| :=
          le_max_right _ _
        exact h1.trans (h2.trans h3)

lemma ewmAt_succ (α : ℚ) (x : ℕ → Option ℚ) (t : ℕ) :
    ewmAt α x (t + 1) =
      match ewmAt α x t, x (t + 1) with
      | Option.none, v => v
      | Option.some s, Option.none => some s
      | Option.some s, Option.some v => some ((1 - α) * s + α * v) := rfl

lemma ewmAt_ge (α lo : ℚ) (x : ℕ → Option ℚ) (h0 : 0 ≤ α) (h1 : α ≤ 1)
    (hx : ∀ t v, x t = some v → lo ≤ v) :
    ∀ t v, ewmAt α x t = some v → lo ≤ v := by
  intro t
  induction t with
  | zero => intro v h; exact hx 0 v h
  | succ t ih =>
    intro v h
    rw [ewmAt_succ] at h
    cases hE : ewmAt α x t with
    | none =>
      rw [hE] at h
      exact hx (t + 1) v h
    | some s =>
      rw [hE] at h
      cases hX : x (t + 1) with
      | none =>
        rw [hX] at h
        simp only [Option.some.injEq] at h
        subst h
        exact ih s hE
      | some w =>
        rw [hX] at h
        simp only [Option.some.injEq] at h
        subst h
        have hs := ih s hE
        have hw := hx (t + 1) w hX
        nlinarith

lemma ewmAt_le (α hi : ℚ) (x : ℕ → Option ℚ) (h0 : 0 ≤ α) (h1 : α ≤ 1)
    (hx : ∀ t v, x t = some v → v ≤ hi) :
    ∀ t v, ewmAt α x t = some v → v ≤ hi := by
  intro t
  induction t with
  | zero => intro v h; exact hx 0 v h
  | succ t ih =>
    intro v h
    rw [ewmAt_succ] at h
    cases hE : ewmAt α x t with
    | none =>
      rw [hE] at h
      exact hx (t + 1) v h
    | some s =>
      rw [hE] at h
      cases hX : x (t + 1) with
      | none =>
        rw [hX] at h
        simp only [Option.some.injEq] at h
        subst h
        exact ih s hE
      | some w =>
        rw [hX] at h
        simp only [Option.some.injEq] at h
        subst h
        have hs := ih s hE
        have hw := hx (t + 1) w hX
        nlinarith

lemma ewmQAt_nonneg (α : ℚ) (x : ℕ → ℚ) (h0 : 0 ≤ α) (h1 : α ≤ 1)
    (hx : ∀ t, 0 ≤ x t) : ∀ t, 0 ≤ ewmQAt α x t := by
  intro t
  induction t with
  | zero => exact hx 0
  | succ t ih =>
    have hw := hx (t + 1)
    show 0 ≤ (1 - α) * ewmQAt α x t + α * x (t + 1)
    nlinarith

lemma plusDmAt_nonneg (bars : List Bar) (t : ℕ) : 0 ≤ plusDmAt bars t := by
  unfold plusDmAt
  split
  · rename_i h
    exact le_of_lt h.2
  · exact le_refl 0

lemma minusDmAt_nonneg (bars : List Bar) (t : ℕ) : 0 ≤ minusDmAt bars t := by
  unfold minusDmAt
  split
  · rename_i h
    exact le_of_lt h.2
  · exact le_refl 0

lemma plusDmSmoothAt_nonneg (bars : List Bar) (p t : ℕ) :
    0 ≤ plusDmSmoothAt bars p t :=
  ewmQAt_nonneg _ _ (alpha_nonneg p) (alpha_le_one p) (plusDmAt_nonneg bars) t

lemma minusDmSmoothAt_nonneg (bars : List Bar) (p t : ℕ) :
    0 ≤ minusDmSmoothAt bars p t :=
  ewmQAt_nonneg _ _ (alpha_nonneg p) (alpha_le_one p) (minusDmAt_nonneg bars) t

lemma trSmoothAt_nonneg {bars : List Bar} {p t : ℕ} {v : ℚ}
    (h : trSmoothAt bars p t = some v) : 0 ≤ v :=
  ewmAt_ge _ 0 _ (alpha_nonneg p) (alpha_le_one p)
    (fun _ _ hw => trAt_nonneg hw) t v h

lemma plusDiAt_nonneg {bars : List Bar} {p t : ℕ} {v : ℚ}
    (h : plusDiAt bars p t = some v) : 0 ≤ v := by
  unfold plusDiAt at h
  cases hs : trSmoothAt bars p t with
  | none => rw [hs] at h; simp at h
  | some s =>
    rw [hs] at h
    rw [Option.map_some'] at h
    simp only [Option.some.injEq] at h
    subst h
    have h1 := trSmoothAt_nonneg hs
    have h2 := plusDmSmoothAt_nonneg bars p t
    have h3 := epsilon_pos
    positivity

lemma minusDiAt_nonneg {bars : List Bar} {p t : ℕ} {v : ℚ}
    (h : minusDiAt bars p t = some v) : 0 ≤ v := by
  unfold minusDiAt at h
  cases hs : trSmoothAt bars p t with
  | none => rw [hs] at h; simp at h
  | some s =>
    rw [hs] at h
    rw [Option.map_some'] at h
    simp only [Option.some.injEq] at h
    subst h
    have h1 := trSmoothAt_nonneg hs
    have h2 := minusDmSmoothAt_nonneg bars p t
    have h3 := epsilon_pos
    positivity

lemma dxAt_bounds {bars : List Bar} {p t : ℕ} {v : ℚ}
    (h : dxAt bars p t = some v) : 0 ≤ v ∧ v ≤ 100 := by
  unfold dxAt at h
  cases hpd : plusDiAt bars p t with
  | none => rw [hpd] at h; simp at h
  | some a =>
    cases hmd : minusDiAt bars p t with
    | none => rw [hpd, hmd] at h; simp at h
    | some b =>
      rw [hpd, hmd] at h
      simp only [Option.some.injEq] at h
      subst h
      have ha := plusDiAt_nonneg hpd
      have hb := minusDiAt_nonneg hmd
      have he := epsilon_pos
      have hden : 0 < a + b + epsilon := by linarith
      constructor
      · positivity
      · rw [div_le_iff₀ hden]
        have habs : |a - b| ≤ a + b + epsilon :=
          abs_le.mpr ⟨by linarith, by linarith⟩
        nlinarith

lemma adxAt_bounds {bars : List Bar} {p t : ℕ} {v : ℚ}
    (h : adxAt bars p t = some v) : 0 ≤ v ∧ v ≤ 100 :=
  ⟨ewmAt_ge _ 0 _ (alpha_nonneg p) (alpha_le_one p)
      (fun _ _ hw => (dxAt_bounds hw).1) t v h,
   ewmAt_le _ 100 _ (alpha_nonneg p) (alpha_le_one p)
      (fun _ _ hw => (dxAt_bounds hw).2) t v h⟩

lemma trAt_isSome {bars : List Bar} {t : ℕ} (h1 : 1 ≤ t)
    (h2 : t < bars.length) : ∃ c, trAt bars t = some c := by
  have hne : t ≠ 0 := Nat.one_le_iff_ne_zero.mp h1
  have hgt : bars.get? t = some (bars.get ⟨t, h2⟩) := List.get?_eq_get h2
  have h2p : t - 1 < bars.length := lt_of_le_of_lt (Nat.sub_le t 1) h2
  have hgp : bars.get? (t - 1) = some (bars.get ⟨t - 1, h2p⟩) :=
    List.get?_eq_get h2p
  unfold trAt
  rw [if_neg hne, hgt, hgp]
  exact ⟨_, rfl⟩

lemma atr_isSome {bars : List Bar} (p : ℕ) {t : ℕ} (h1 : 1 ≤ t)
    (h2 : t < bars.length) :
    ∃ a, ewmAt (1 / (p : ℚ)) (trAt bars) t = some a := by
  induction t with
  | zero => exact absurd h1 (by norm_num)
  | succ t ih =>
    obtain ⟨c, hc⟩ := trAt_isSome (Nat.le_add_left 1 t) h2
    rw [ewmAt_succ]
    cases hE : ewmAt (1 / (p : ℚ)) (trAt bars) t with
    | none =>
      rw [hc]
      exact ⟨c, rfl⟩
    | some s =>
      rw [hc]
      exact ⟨_, rfl⟩

end Bot

deriving instance DecidableEq for Except

namespace Bot

/-! ## Claim theorems -/

/-- C3: the claim says `donchian_channel(series, k)` uses the
caller-supplied `period` as the rolling window.  The code
(`calculate_donchian`, src/utils/indicators.py lines 16–17, contradicting
its own docstring) hard-codes `rolling(window=3)`: on the series with highs
`[10, 1, 1]` and `period = 2`, the code's `donchian_high[2]` is the 3-bar
max `10` while the claimed 2-bar trailing max is `1`, and the code's
`donchian_high[1]` is NaN while the claimed window is already full there
(value `10`). -/
theorem C3_donchian_window_hardcoded_three :
    donchianHighAt [⟨10, 9, 9⟩, ⟨1, 0, 1⟩, ⟨1, 0, 1⟩] 2 2 = some 10 ∧
    donchianSpecHighAt [⟨10, 9, 9⟩, ⟨1, 0, 1⟩, ⟨1, 0, 1⟩] 2 2 = some 1 ∧
    donchianHighAt [⟨10, 9, 9⟩, ⟨1, 0, 1⟩, ⟨1, 0, 1⟩] 2 1 = Option.none ∧
    donchianSpecHighAt [⟨10, 9, 9⟩, ⟨1, 0, 1⟩, ⟨1, 0, 1⟩] 2 1 = some 10 ∧
    (10 : ℚ) ≠ 1 := by decide

/-- C4: `insert_signal` in both stores reads `signal.signal_type` (an
attribute the `Signal` dataclass does not define) before any row is
written, so it raises `AttributeError` instead of persisting; the dataclass
also lacks `signal_id` and `run_id`; and the signal read queries pass
`signal_type=`/`signal_id=`/`run_id=` keywords that `Signal(...)` does not
accept. -/
theorem C4_signal_persistence_attribute_and_kwarg_errors :
    runAttrReads insertSignalReadsBacktest signalFieldNames =
      Except.error (PyException.attributeError "signal_type") ∧
    runAttrReads insertSignalReadsLive signalFieldNames =
      Except.error (PyException.attributeError "signal_type") ∧
    callCtorKwargs getSignalsForRunKwargs signalFieldNames =
      Except.error (PyException.typeError "signal_type") ∧
    callCtorKwargs getSignalsKwargsLive signalFieldNames =
      Except.error (PyException.typeError "signal_type") ∧
    signalFieldNames.contains "signal_type" = false ∧
    signalFieldNames.contains "signal_id" = false ∧
    signalFieldNames.contains "run_id" = false := by decide

/-- C6: for every OHLC series with at least two bars and every period
`p ≥ 1`, `calculate_atr` satisfies the Wilder recursion at every index past
the first defined true-range value (`t ≥ 2`, the true range being NaN at 0
and first defined at 1): `atr[t] = atr[t-1] + (1/p)·(tr[t] − atr[t-1])`. -/
theorem C6_atr_wilder_recursion (bars : List Bar) (p t : ℕ)
    (hlen : 2 ≤ bars.length) (hp : 1 ≤ p) (ht : 2 ≤ t)
    (htl : t < bars.length) :
    ∃ a b c, calculate_atr bars p t = some a ∧
      calculate_atr bars p (t - 1) = some b ∧
      trAt bars t = some c ∧
      a = b + (1 / (p : ℚ)) * (c - b) := by
  obtain ⟨k, rfl⟩ : ∃ k, t = k + 2 := ⟨t - 2, (Nat.sub_add_cancel ht).symm⟩
  have hk1 : k + 1 < bars.length := lt_of_le_of_lt (Nat.le_succ _) htl
  obtain ⟨b, hb⟩ := atr_isSome p (Nat.le_add_left 1 k) hk1
  obtain ⟨c, hc⟩ := trAt_isSome (t := k + 2) (by omega) htl
  refine ⟨(1 - 1 / (p : ℚ)) * b + (1 / (p : ℚ)) * c, b, c, ?_, ?_, hc, by ring⟩
  · unfold calculate_atr
    rw [ewmAt_succ, hb, hc]
  · exact hb

/-- C6 witness: a concrete 3-bar series with `p = 1`, `t = 2`. -/
theorem C6_atr_wilder_recursion_witness :
    2 ≤ ([⟨2, 1, 1⟩, ⟨3, 1, 2⟩, ⟨4, 1, 3⟩] : List Bar).length ∧ 1 ≤ 1 ∧
    2 ≤ 2 ∧ 2 < ([⟨2, 1, 1⟩, ⟨3, 1, 2⟩, ⟨4, 1, 3⟩] : List Bar).length ∧
    (∃ a b c, calculate_atr [⟨2, 1, 1⟩, ⟨3, 1, 2⟩, ⟨4, 1, 3⟩] 1 2 = some a ∧
      calculate_atr [⟨2, 1, 1⟩, ⟨3, 1, 2⟩, ⟨4, 1, 3⟩] 1 (2 - 1) = some b ∧
      trAt [⟨2, 1, 1⟩, ⟨3, 1, 2⟩, ⟨4, 1, 3⟩] 2 = some c ∧
      a = b + (1 / ((1 : ℕ) : ℚ)) * (c - b)) :=
  ⟨by decide, by decide, by decide, by decide,
   C6_atr_wilder_recursion [⟨2, 1, 1⟩, ⟨3, 1, 2⟩, ⟨4, 1, 3⟩] 1 2
     (by decide) (by decide) (by decide) (by decide)⟩

/-- C7: on any series whose bars all satisfy `high ≥ low`, with any period
`p ≥ 1`: every defined ATR value is ≥ 0, every defined ADX value lies in
`[0, 100]`, and wherever both Donchian bands are defined,
`high_band ≥ low_band`. -/
theorem C7_indicator_numeric_bounds (bars : List Bar) (p : ℕ) (hp : 1 ≤ p)
    (hb : ∀ b ∈ bars, b.low ≤ b.high) :
    (∀ t v, calculate_atr bars p t = some v → 0 ≤ v) ∧
    (∀ t v, adxAt bars p t = some v → 0 ≤ v ∧ v ≤ 100) ∧
    (∀ per t hv lv, donchianHighAt bars per t = some hv →
      donchianLowAt bars per t = some lv → lv ≤ hv) := by
  refine ⟨?_, ?_, ?_⟩
  · intro t v h
    exact ewmAt_ge _ 0 _ (alpha_nonneg p) (alpha_le_one p)
      (fun _ _ hw => trAt_nonneg hw) t v h
  · intro t v h
    exact adxAt_bounds h
  · intro per t hv lv hH hL
    unfold donchianHighAt at hH
    unfold donchianLowAt at hL
    split at hH
    · simp at hH
    · rename_i ht
      rw [if_neg ht] at hL
      cases hg2 : bars.get? (t - 2) with
      | none => rw [hg2] at hH; simp at hH
      | some a =>
        cases hg1 : bars.get? (t - 1) with
        | none => rw [hg2, hg1] at hH; simp at hH
        | some b =>
          cases hg0 : bars.get? t with
          | none => rw [hg2, hg1, hg0] at hH; simp at hH
          | some c =>
            rw [hg2, hg1, hg0] at hH hL
            simp only [Option.some.injEq] at hH hL
            subst hH
            subst hL
            have hc : c.low ≤ c.high := hb c (List.get?_mem hg0)
            have h1 : min a.low (min b.low c.low) ≤ c.low :=
              le_trans (min_le_right _ _) (min_le_right _ _)
            have h2 : c.high ≤ max3 a.high b.high c.high :=
              le_trans (le_max_right _ _) (le_max_right _ _)
            exact le_trans h1 (le_trans hc h2)

/-- C7 witness: a concrete 3-bar series with `p = 1`. -/
theorem C7_indicator_numeric_bounds_witness :
    1 ≤ 1 ∧ (∀ b ∈ ([⟨2, 1, 1⟩, ⟨3, 2, 2⟩, ⟨4, 3, 3⟩] : List Bar), b.low ≤ b.high) ∧
    ((∀ t v, calculate_atr [⟨2, 1, 1⟩, ⟨3, 2, 2⟩, ⟨4, 3, 3⟩] 1 t = some v → 0 ≤ v) ∧
     (∀ t v, adxAt [⟨2, 1, 1⟩, ⟨3, 2, 2⟩, ⟨4, 3, 3⟩] 1 t = some v → 0 ≤ v ∧ v ≤ 100) ∧
     (∀ per t hv lv, donchianHighAt [⟨2, 1, 1⟩, ⟨3, 2, 2⟩, ⟨4, 3, 3⟩] per t = some hv →
       donchianLowAt [⟨2, 1, 1⟩, ⟨3, 2, 2⟩, ⟨4, 3, 3⟩] per t = some lv → lv ≤ hv)) :=
  ⟨by decide, by decide,
   C7_indicator_numeric_bounds [⟨2, 1, 1⟩, ⟨3, 2, 2⟩, ⟨4, 3, 3⟩] 1
     (by decide) (by decide)⟩

/-- A `Trade` constructed with an explicit non-zero `gross_result`:
`__post_init__` keeps the supplied values, used to refute C2 as a universal
invariant. -/
def c2trade : Trade :=
  { stock := "AAPL", direction := Direction.long,
    quantity_type := QuantityType.shares, quantity := 1, entry_price := 1,
    exit_price := 2, entry_date := 0, exit_date := 1,
    gross_result := some 999, commission := some 0, net_result := some 0,
    entry_signal_id := 1, exit_signal_id := 2 }

/-- C2 counterexample: a LONG `Trade` with `entry_price = 1`,
`exit_price = 2`, `quantity = 1` but an explicitly supplied
`gross_result = 999` is kept as given by `Trade.__post_init__` (the
auto-computation only fires on `None`/`0.0`), so the stored record violates
`gross_result = (exit_price − entry_price) × quantity = 1`. -/
theorem C2_counterexample_explicit_gross_kept :
    (tradePostInit c2trade).gross_result = some 999 ∧
    (tradePostInit c2trade).quantity = 1 ∧
    (c2trade.exit_price - c2trade.entry_price) * (tradePostInit c2trade).quantity = 1 ∧
    ((999 : ℚ) = 1 → False) := by
  refine ⟨?_, ?_, ?_, ?_⟩ <;> simp [tradePostInit, c2trade] <;> norm_num

/-- C2 amended: for every `Trade` whose `gross_result` and `net_result` are
passed as `None` or `0.0` (the auto-computation path), `__post_init__`
stores `quantity = |quantity|`, `gross_result = (exit − entry) × quantity`
for LONG and `(entry − exit) × quantity` for SHORT, and
`net_result = gross_result − commission` (a `None`/falsy commission
counting as 0).  A caller-supplied non-zero `gross_result`/`net_result` is
kept verbatim, so the formulas are not an invariant of every stored
record. -/
theorem C2_auto_computed_result_formulas (t : Trade)
    (hg : t.gross_result = Option.none ∨ t.gross_result = some 0)
    (hn : t.net_result = Option.none ∨ t.net_result = some 0) :
    ∃ g, (tradePostInit t).gross_result = some g ∧
      (tradePostInit t).quantity = |t.quantity| ∧
      (t.direction = Direction.long → g = (t.exit_price - t.entry_price) * |t.quantity|) ∧
      (t.direction = Direction.short → g = (t.entry_price - t.exit_price) * |t.quantity|) ∧
      (tradePostInit t).net_result = some (g - t.commission.getD 0) := by
  obtain ⟨stock, direction, qty_t, qty, ep, xp, ed, xd, gr, comm, nr, esid, xsid, tid, rid⟩ := t
  simp only at hg hn ⊢
  rcases hg with rfl | rfl <;> rcases hn with rfl | rfl <;> cases direction <;>
    simp [tradePostInit] <;> ring

/-- C2 witness: a SHORT trade entered at 5, exited at 3, quantity passed as
−10, commission 2, results passed as `None`. -/
theorem C2_auto_computed_result_formulas_witness :
    ((Option.none : Option ℚ) = Option.none ∨ (Option.none : Option ℚ) = some 0) ∧
    (∃ g, (tradePostInit
        { stock := "MSFT", direction := Direction.short,
          quantity_type := QuantityType.shares, quantity := -10,
          entry_price := 5, exit_price := 3, entry_date := 0, exit_date := 1,
          gross_result := Option.none, commission := some 2,
          net_result := Option.none, entry_signal_id := 1,
          exit_signal_id := 2 }).gross_result = some g ∧
      (tradePostInit
        { stock := "MSFT", direction := Direction.short,
          quantity_type := QuantityType.shares, quantity := -10,
          entry_price := 5, exit_price := 3, entry_date := 0, exit_date := 1,
          gross_result := Option.none, commission := some 2,
          net_result := Option.none, entry_signal_id := 1,
          exit_signal_id := 2 }).quantity = |(-10 : ℚ)| ∧
      (Direction.short = Direction.long → g = ((3 : ℚ) - 5) * |(-10 : ℚ)|) ∧
      (Direction.short = Direction.short → g = ((5 : ℚ) - 3) * |(-10 : ℚ)|) ∧
      (tradePostInit
        { stock := "MSFT", direction := Direction.short,
          quantity_type := QuantityType.shares, quantity := -10,
          entry_price := 5, exit_price := 3, entry_date := 0, exit_date := 1,
          gross_result := Option.none, commission := some 2,
          net_result := Option.none, entry_signal_id := 1,
          exit_signal_id := 2 }).net_result =
        some (g - (some (2 : ℚ)).getD 0)) :=
  ⟨Or.inl rfl,
   C2_auto_computed_result_formulas
     { stock := "MSFT", direction := Direction.short,
       quantity_type := QuantityType.shares, quantity := -10,
       entry_price := 5, exit_price := 3, entry_date := 0, exit_date := 1,
       gross_result := Option.none, commission := some 2,
       net_result := Option.none, entry_signal_id := 1, exit_signal_id := 2 }
     (Or.inl rfl) (Or.inl rfl)⟩

/-- A backtest store holding run 1 and two signals (ids 1 and 2), no open
positions and no trades — the pre-call state for the C1 failing input. -/
def c1db : BacktestDB :=
  { runs := [1]
    signals :=
      [{ signal_id := 1, run_id := 1, stock := "AAPL",
         direction := Direction.long, date := 0,
         signal_type := SignalType.entry, price := 150, confidence := -1,
         reason := "" },
       { signal_id := 2, run_id := 1, stock := "AAPL",
         direction := Direction.long, date := 1,
         signal_type := SignalType.exit, price := 160, confidence := -1,
         reason := "" }]
    positions := []
    trades := []
    nextPositionId := 1
    nextTradeId := 1
    currentRunId := some 1 }

/-- The trade passed to `close_open_position` in the C1 failing input. -/
def c1trade : Trade :=
  { stock := "AAPL", direction := Direction.long,
    quantity_type := QuantityType.shares, quantity := 10,
    entry_price := 150, exit_price := 160, entry_date := 0, exit_date := 1,
    gross_result := some 100, commission := some 2, net_result := some 98,
    entry_signal_id := 1, exit_signal_id := 2 }

/-- C1: the claim requires `close_open_position` on an unknown
`open_position_id` to fail with the position-not-found error, roll back,
and leave the trade table unchanged in BOTH stores.  The backtest
implementation (backtest_db_impl.py lines 341–366) never checks the
DELETE's rowcount: on a store with no position 999 it inserts the trade,
commits, raises nothing and returns the new trade id, growing the trade
table by one — an orphaned Trade row.  (The live implementation does check
`rowcount` and rolls back.) -/
theorem C1_backtest_close_unknown_id_commits_orphan_trade :
    (c1db.positions.map (fun q => q.open_position_id)).contains 999 = false ∧
    (closeOpenPositionB c1db 999 c1trade).2 = Except.ok 1 ∧
    (closeOpenPositionB c1db 999 c1trade).1.trades.length =
      c1db.trades.length + 1 := by
  refine ⟨rfl, rfl, rfl⟩

/-- A backtest store with run 1 and one signal owned by it: the C5
counterexample state. -/
def c5db : BacktestDB :=
  { runs := [1]
    signals :=
      [{ signal_id := 1, run_id := 1, stock := "AAPL",
         direction := Direction.long, date := 0,
         signal_type := SignalType.entry, price := 150, confidence := -1,
         reason := "" }]
    positions := []
    trades := []
    nextPositionId := 1
    nextTradeId := 1
    currentRunId := some 1 }

/-- C5 counterexample: the backtest schema declares its `run_id` foreign
keys WITHOUT `ON DELETE CASCADE` (and the live schema has no run table at
all), so with `PRAGMA foreign_keys = ON` deleting run 1 while a signal with
`run_id = 1` exists fails with an IntegrityError and deletes nothing: a
child record with that `run_id` remains, refuting cascade completeness. -/
theorem C5_counterexample_delete_run_leaves_children :
    (deleteRunB c5db 1).2 = Except.error DbErr.integrityError ∧
    (deleteRunB c5db 1).1 = c5db ∧
    (deleteRunB c5db 1).1.signals.any (fun s => s.run_id = 1) = true := by
  refine ⟨rfl, rfl, rfl⟩

/-- C5 amended: deleting a Run that still owns any Signal, OpenPosition or
Trade is rejected by the schema's plain (NO ACTION) foreign keys: the call
fails with an IntegrityError and the store — children included — is left
unchanged.  No cascade deletion of children exists. -/
theorem C5_delete_referenced_run_rejected (db : BacktestDB) (r : ℤ)
    (h : db.signals.any (fun s => s.run_id = r) = true ∨
         db.positions.any (fun p => p.run_id = r) = true ∨
         db.trades.any (fun t => t.run_id = r) = true) :
    (deleteRunB db r).1 = db ∧
    (deleteRunB db r).2 = Except.error DbErr.integrityError := by
  unfold deleteRunB
  rcases h with h | h | h
  · rw [if_pos (Or.inl h)]
    exact ⟨rfl, rfl⟩
  · rw [if_pos (Or.inr (Or.inl h))]
    exact ⟨rfl, rfl⟩
  · rw [if_pos (Or.inr (Or.inr h))]
    exact ⟨rfl, rfl⟩

/-- C5 amended witness: the concrete store `c5db`, run 1. -/
theorem C5_delete_referenced_run_rejected_witness :
    (c5db.signals.any (fun s => s.run_id = 1) = true ∨
     c5db.positions.any (fun p => p.run_id = 1) = true ∨
     c5db.trades.any (fun t => t.run_id = 1) = true) ∧
    ((deleteRunB c5db 1).1 = c5db ∧
     (deleteRunB c5db 1).2 = Except.error DbErr.integrityError) :=
  ⟨Or.inl rfl, C5_delete_referenced_run_rejected c5db 1 (Or.inl rfl)⟩

/-- C9: in both stores, `insert_open_position` with an `entry_signal_id`
that references no existing Signal fails at the INSERT itself with SQLite's
IntegrityError (foreign keys are ON), and the store is unchanged — no
dangling open-position row is persisted. -/
theorem C9_insert_position_unknown_signal_rejected (bdb : BacktestDB)
    (ldb : LiveDB) (p q : OpenPosition)
    (hbp : bdb.signalIds.contains p.entry_signal_id = false)
    (hlq : ldb.signalIds.contains q.entry_signal_id = false) :
    insertOpenPositionB bdb p = (bdb, Except.error DbErr.integrityError) ∧
    insertOpenPositionL ldb q = (ldb, Except.error DbErr.integrityError) := by
  constructor
  · unfold insertOpenPositionB
    split
    · rfl
    · split
      · rfl
      · split
        · rfl
        · rename_i h
          rw [hbp] at h
          simp at h
  · unfold insertOpenPositionL
    split
    · rfl
    · rename_i h
      rw [hlq] at h
      simp at h

/-- C9 witness: empty stores and a position referencing signal id 5. -/
theorem C9_insert_position_unknown_signal_rejected_witness :
    ((⟨[], [], [], [], 1, 1, some 1⟩ : BacktestDB).signalIds.contains
      (⟨"AAPL", Direction.long, 0, 150, QuantityType.shares, 10, 5,
        Option.none, Option.none⟩ : OpenPosition).entry_signal_id = false) ∧
    ((⟨[], [], [], 1, 1⟩ : LiveDB).signalIds.contains
      (⟨"AAPL", Direction.long, 0, 150, QuantityType.shares, 10, 5,
        Option.none, Option.none⟩ : OpenPosition).entry_signal_id = false) ∧
    (insertOpenPositionB ⟨[], [], [], [], 1, 1, some 1⟩
        ⟨"AAPL", Direction.long, 0, 150, QuantityType.shares, 10, 5,
         Option.none, Option.none⟩ =
      (⟨[], [], [], [], 1, 1, some 1⟩, Except.error DbErr.integrityError) ∧
     insertOpenPositionL ⟨[], [], [], 1, 1⟩
        ⟨"AAPL", Direction.long, 0, 150, QuantityType.shares, 10, 5,
         Option.none, Option.none⟩ =
      (⟨[], [], [], 1, 1⟩, Except.error DbErr.integrityError)) :=
  ⟨rfl, rfl,
   C9_insert_position_unknown_signal_rejected _ _ _ _ rfl rfl⟩

/-- A backtest store with run 1 and one signal, valid targets for an
open-position insert. -/
def c10db : BacktestDB :=
  { runs := [1]
    signals :=
      [{ signal_id := 1, run_id := 1, stock := "AAPL",
         direction := Direction.long, date := 0,
         signal_type := SignalType.entry, price := 150, confidence := -1,
         reason := "" }]
    positions := []
    trades := []
    nextPositionId := 1
    nextTradeId := 1
    currentRunId := some 1 }

/-- An `OpenPosition` with quantity −5, referencing the existing signal. -/
def c10pos : OpenPosition :=
  { stock := "AAPL", direction := Direction.long, date := 0,
    entry_price := 150, quantity_type := QuantityType.shares,
    quantity := -5, entry_signal_id := 1 }

/-- C10 counterexample: neither the `OpenPosition` dataclass nor
`insert_open_position` (nor the schema, whose `quantity REAL` column has no
CHECK constraint) validates `quantity > 0`: inserting a position with
quantity −5 succeeds and persists −5. -/
theorem C10_counterexample_nonpositive_quantity_accepted :
    (insertOpenPositionB c10db c10pos).2 = Except.ok 1 ∧
    (insertOpenPositionB c10db c10pos).1.positions.map (fun q => q.quantity) =
      [-5] ∧
    ((0 : ℚ) < -5 → False) := by
  refine ⟨rfl, rfl, by norm_num⟩

/-- C10 amended: the store never inspects quantity — a successful
`insert_open_position` appends a row carrying exactly the caller's
quantity, whatever its sign; `quantity > 0` is a caller obligation, not a
store-enforced invariant (the stored quantity is then never modified: the
only position-altering operations are this insert and the close's
DELETE). -/
theorem C10_insert_persists_quantity_unchecked (db : BacktestDB)
    (p : OpenPosition) (r : ℤ) (h1 : db.currentRunId = some r)
    (h2 : db.runs.contains r = true)
    (h3 : db.signalIds.contains p.entry_signal_id = true) :
    (insertOpenPositionB db p).2 = Except.ok db.nextPositionId ∧
    (insertOpenPositionB db p).1.positions.map (fun q => q.quantity) =
      db.positions.map (fun q => q.quantity) ++ [p.quantity] := by
  have h2m : r ∈ db.runs := by simpa using h2
  have h3m : p.entry_signal_id ∈ db.signalIds := by simpa using h3
  unfold insertOpenPositionB
  rw [h1]
  simp [h2m, h3m]

/-- C10 amended witness: the concrete store and the quantity −5 position. -/
theorem C10_insert_persists_quantity_unchecked_witness :
    c10db.currentRunId = some 1 ∧
    c10db.runs.contains 1 = true ∧
    c10db.signalIds.contains c10pos.entry_signal_id = true ∧
    ((insertOpenPositionB c10db c10pos).2 = Except.ok c10db.nextPositionId ∧
     (insertOpenPositionB c10db c10pos).1.positions.map (fun q => q.quantity) =
       c10db.positions.map (fun q => q.quantity) ++ [c10pos.quantity]) :=
  ⟨rfl, rfl, rfl,
   C10_insert_persists_quantity_unchecked c10db c10pos 1 rfl rfl rfl⟩

/-- C8: an input lacking a column required for the requested computation
makes each indicator fail with a missing-field error (`calculate_adx` and
`calculate_atr` via their explicit column check, `calculate_donchian` via
the `KeyError` from subscripting the absent column); with the required
columns present no validation is performed: `calculate_donchian` succeeds
for EVERY period (it never reads it), `calculate_atr`/`calculate_adx`
succeed for every period ≥ 1, and for `period = 0` they fail with an
unguarded `ZeroDivisionError` from `alpha = 1/period` — not any
`period > 0` check. -/
theorem C8_missing_column_is_only_validation (f : Frame) (per : ℤ) :
    (f.hasHigh = false ∨ f.hasLow = false →
      ∃ e, calculate_donchian_checked f per = Except.error e ∧
        isMissingFieldErr e = true) ∧
    (¬ (f.hasHigh = true ∧ f.hasLow = true ∧ f.hasClose = true) →
      calculate_atr_checked f per = Except.error IndicatorErr.missingColumns ∧
      calculate_adx_checked f per = Except.error IndicatorErr.missingColumns ∧
      isMissingFieldErr IndicatorErr.missingColumns = true) ∧
    (f.hasHigh = true → f.hasLow = true →
      ∃ out, calculate_donchian_checked f per = Except.ok out) ∧
    (f.hasHigh = true → f.hasLow = true → f.hasClose = true → 1 ≤ per →
      (∃ out, calculate_atr_checked f per = Except.ok out) ∧
      (∃ out, calculate_adx_checked f per = Except.ok out)) ∧
    (f.hasHigh = true → f.hasLow = true → f.hasClose = true →
      calculate_atr_checked f 0 = Except.error IndicatorErr.zeroDivision ∧
      calculate_adx_checked f 0 = Except.error IndicatorErr.zeroDivision) := by
  obtain ⟨hh, hl, hc, bars⟩ := f
  refine ⟨?_, ?_, ?_, ?_, ?_⟩
  · intro h
    rcases h with h | h <;> subst h
    · exact ⟨IndicatorErr.keyMissing "high", rfl, rfl⟩
    · cases hh with
      | false => exact ⟨IndicatorErr.keyMissing "high", rfl, rfl⟩
      | true => exact ⟨IndicatorErr.keyMissing "low", rfl, rfl⟩
  · intro h
    cases hh <;> cases hl <;> cases hc <;> simp at h ⊢ <;>
      refine ⟨?_, ?_, ?_⟩ <;> rfl
  · intro h1 h2
    subst h1
    subst h2
    exact ⟨_, rfl⟩
  · intro h1 h2 h3 hper
    subst h1
    subst h2
    subst h3
    have hne : per = 0 → False := by omega
    have hnl : per < 0 → False := by omega
    constructor
    · refine ⟨calculate_atr bars per.toNat, ?_⟩
      unfold calculate_atr_checked
      rw [if_neg (by simp), if_neg hne, if_neg hnl]
    · refine ⟨(plusDiAt bars per.toNat, minusDiAt bars per.toNat,
        adxAt bars per.toNat), ?_⟩
      unfold calculate_adx_checked
      rw [if_neg (by simp), if_neg hne, if_neg hnl]
  · intro h1 h2 h3
    subst h1
    subst h2
    subst h3
    exact ⟨rfl, rfl⟩

/-- C8 witness: a frame missing `high`, and a complete frame, with
period 14 and period 0. -/
theorem C8_missing_column_is_only_validation_witness :
    ((false = false ∨ true = false) ∧
     (∃ e, calculate_donchian_checked ⟨false, true, true, []⟩ 14 =
        Except.error e ∧ isMissingFieldErr e = true)) ∧
    ((¬ (false = true ∧ true = true ∧ true = true)) ∧
     calculate_atr_checked ⟨false, true, true, []⟩ 14 =
       Except.error IndicatorErr.missingColumns) ∧
    (∃ out, calculate_donchian_checked ⟨true, true, true, []⟩ (-3) =
      Except.ok out) ∧
    ((1 : ℤ) ≤ 14 ∧
     (∃ out, calculate_atr_checked ⟨true, true, true, []⟩ 14 = Except.ok out)) ∧
    calculate_atr_checked ⟨true, true, true, []⟩ 0 =
      Except.error IndicatorErr.zeroDivision :=
  ⟨⟨Or.inl rfl,
    (C8_missing_column_is_only_validation ⟨false, true, true, []⟩ 14).1
      (Or.inl rfl)⟩,
   ⟨by simp,
    ((C8_missing_column_is_only_validation ⟨false, true, true, []⟩ 14).2.1
      (by simp)).1⟩,
   (C8_missing_column_is_only_validation ⟨true, true, true, []⟩ (-3)).2.2.1
     rfl rfl,
   ⟨by norm_num,
    ((C8_missing_column_is_only_validation ⟨true, true, true, []⟩ 14).2.2.2.1
      rfl rfl rfl (by norm_num)).1⟩,
   ((C8_missing_column_is_only_validation ⟨true, true, true, []⟩ 14).2.2.2.2
     rfl rfl rfl).1⟩

end Bot
